import Mathlib

/-!
Verification development for the task-ledger application (`src/app.py`).
The Python source is shallowly embedded: pandas DataFrame rows become a
`TaskRecord` structure, the spreadsheet becomes a list of string rows (and,
for the frame-effect analysis, a row-indexed function), handler callbacks
become pure functions returning the new ledger together with the effects
they performed (save invoked, error reported, mail calls made).
Machine text is `String`/`List Char`; calendar dates are a `Date` structure
of numerals with an explicit validity predicate mirroring Python's
`datetime.date` range.
-/

namespace TaskApp

/-- A calendar date, mirroring Python `datetime.date` components. -/
structure Date where
  year : Nat
  month : Nat
  day : Nat
deriving DecidableEq, Repr

/-- Gregorian leap-year test, as used by `datetime`/`pandas` calendars. -/
def isLeap (y : Nat) : Bool :=
  y % 4 == 0 && (y % 100 != 0 || y % 400 == 0)

/-- Days in a month of the proleptic Gregorian calendar. -/
def daysInMonth (y m : Nat) : Nat :=
  if m == 2 then (if isLeap y then 29 else 28)
  else if m == 4 || m == 6 || m == 9 || m == 11 then 30
  else 31

/-- Validity of a `Date`: the range Python's `datetime.date` accepts
(years 1..9999, real calendar month/day). -/
def dateValid (d : Date) : Bool :=
  1 ≤ d.year && d.year ≤ 9999 &&
  1 ≤ d.month && d.month ≤ 12 &&
  1 ≤ d.day && d.day ≤ daysInMonth d.year d.month

/-- Strict calendar-date comparison (no time component), as performed by
the `due_ts < pd.Timestamp(today)` mask in the alert computation. -/
def dateLt (a b : Date) : Bool :=
  a.year < b.year ||
  (a.year == b.year && (a.month < b.month ||
    (a.month == b.month && a.day < b.day)))

/-- Whitespace characters stripped by Python's `str.strip()`. -/
def isWs (c : Char) : Bool :=
  c == ' ' || c == '\t' || c == '\n' || c == '\r' || c == '\x0b' || c == '\x0c'

/-- Strip leading and trailing whitespace from a character list
(Python `str.strip()`). -/
def trimWs (l : List Char) : List Char :=
  ((l.dropWhile isWs).reverse.dropWhile isWs).reverse

/-- The decimal digit character for `n < 10`. -/
def digitChar (n : Nat) : Char := Char.ofNat (48 + n)

/-- Decimal digit string of a natural number, most significant first. -/
def natDigits (n : Nat) : List Char :=
  if _h : n < 10 then [digitChar n]
  else natDigits (n / 10) ++ [digitChar (n % 10)]
decreasing_by exact Nat.div_lt_self (Nat.lt_of_lt_of_le (by norm_num) (Nat.le_of_not_lt _h)) (by norm_num)

/-- Left-pad a digit string with zeros to width `k`
(Python `strftime` zero padding). -/
def padZeros (k : Nat) (l : List Char) : List Char :=
  List.replicate (k - l.length) '0' ++ l

/-- Numeric value of a digit character. -/
def charVal (c : Char) : Nat := c.toNat - 48

/-- One step of decimal accumulation. -/
def digitStep (a : Nat) (c : Char) : Nat := 10 * a + charVal c

/-- Decimal value of a digit string; `none` unless nonempty and all digits. -/
def digitsToNat (l : List Char) : Option Nat :=
  if l ≠ [] ∧ l.all Char.isDigit then some (l.foldl digitStep 0)
  else none

/-- Split a character list on a separator character; `n` separators yield
`n+1` (possibly empty) fields. -/
def splitOnChar (sep : Char) : List Char → List (List Char)
  | [] => [[]]
  | c :: cs =>
    if c = sep then [] :: splitOnChar sep cs
    else
      match splitOnChar sep cs with
      | [] => [[c]]
      | t :: ts => (c :: t) :: ts

/-- Hyphenated year-month-day calendar parsing with calendar validation:
the model of the library date parser (`pd.to_datetime(x).date()`) on the
textual form the application itself writes (`YYYY-MM-DD`); any input that
is not a valid hyphenated calendar date fails (the library raises, which
`parse_date` turns into absent). -/
def parseYMD (l : List Char) : Option Date :=
  match splitOnChar '-' l with
  | [ys, ms, ds] =>
    match digitsToNat ys, digitsToNat ms, digitsToNat ds with
    | some y, some m, some d =>
      if dateValid ⟨y, m, d⟩ then some ⟨y, m, d⟩ else none
    | _, _, _ => none
  | _ => none

/-- `parse_date` from `load_data` (src/app.py lines 56-59): absent for
empty or whitespace-only input, otherwise the result of calendar parsing,
with any parse failure mapped to absent. -/
def parse_date (s : String) : Option Date :=
  let t := trimWs s.data
  if t = [] then none else parseYMD t

/-- Character-list form of one formatted date
(`x.strftime('%Y-%m-%d')`, src/app.py line 84). -/
def formatDateChars (d : Date) : List Char :=
  padZeros 4 (natDigits d.year) ++ '-' :: (padZeros 2 (natDigits d.month) ++ '-' :: padZeros 2 (natDigits d.day))

/-- Date formatting used by `save_data` (src/app.py line 84): absent maps
to the empty string, present to zero-padded `YYYY-MM-DD`. -/
def format_date (x : Option Date) : String :=
  match x with
  | none => ""
  | some d => ⟨formatDateChars d⟩

/-- One row of the in-memory ledger DataFrame: the two transient UI
columns (`通知` notify, `削除` delete) followed by the persisted columns in
`SPREADSHEET_ORDER`. Priority and status are stored as the raw strings the
source uses (`高/中/低`, `未対応/進行中/完了`). -/
structure TaskRecord where
  notify : Bool
  delete : Bool
  title : String
  details : String
  requester : String
  assignee1 : String
  assignee2 : String
  assignee3 : String
  priority : String
  status : String
  due : Option Date
  completion : Option Date
  remarks : String
deriving DecidableEq, Repr

/-- `PRIORITY_OPTIONS` (src/app.py line 13): 高 (High), 中 (Medium), 低 (Low). -/
def PRIORITY_OPTIONS : List String := ["高", "中", "低"]

/-- `STATUS_OPTIONS` (src/app.py line 14): 未対応 (Unstarted), 進行中
(InProgress), 完了 (Done). -/
def STATUS_OPTIONS : List String := ["未対応", "進行中", "完了"]

/-- The per-record alert predicate computed by the mask on src/app.py
lines 165-167: status not 完了 (Done), and either the due date is present
and strictly earlier than today (`NaT` compares false) or the priority is
高 (High). -/
def is_alertable (r : TaskRecord) (today : Date) : Bool :=
  (r.status != "完了") &&
  ((match r.due with | some d => dateLt d today | none => false) ||
    r.priority == "高")

/-- `alert_rows` (src/app.py line 167): the ledger rows selected by the
alert mask. -/
def alert_rows (ledger : List TaskRecord) (today : Date) : List TaskRecord :=
  ledger.filter (fun r => is_alertable r today)

/-- One spreadsheet row produced by `save_data` (src/app.py lines 78-89):
transient columns dropped, dates formatted, persisted columns in
`SPREADSHEET_ORDER`. -/
def save_row (r : TaskRecord) : List String :=
  [r.title, r.details, r.requester,
   r.assignee1, r.assignee2, r.assignee3,
   r.priority, r.status,
   format_date r.due, format_date r.completion, r.remarks]

/-- The data rows `save_data` writes to the sheet
(`save_df.values.tolist()`, src/app.py line 89). -/
def save_data (ledger : List TaskRecord) : List (List String) :=
  ledger.map save_row

/-- One ledger record produced by `load_data` (src/app.py lines 36-67)
from a stored row: missing cells repaired to the empty string, transient
flags re-derived as false, date columns parsed. -/
def load_row (row : List String) : TaskRecord :=
  { notify := false, delete := false,
    title := row.getD 0 "", details := row.getD 1 "", requester := row.getD 2 "",
    assignee1 := row.getD 3 "", assignee2 := row.getD 4 "", assignee3 := row.getD 5 "",
    priority := row.getD 6 "", status := row.getD 7 "",
    due := parse_date (row.getD 8 ""), completion := parse_date (row.getD 9 ""),
    remarks := row.getD 10 "" }

/-- `load_data` (src/app.py lines 36-67) on the stored data rows. -/
def load_data (store : List (List String)) : List TaskRecord :=
  store.map load_row

/-- A record with its transient UI flags reset to false. -/
def resetFlags (r : TaskRecord) : TaskRecord :=
  { r with notify := false, delete := false }

/-- The fields entered in the registration form (src/app.py lines
238-260); the two date pickers may be empty (`None`). -/
structure FormInput where
  title : String
  details : String
  requester : String
  as1 : String
  as2 : String
  as3 : String
  priority : String
  status : String
  due_date : Option Date
  completion_date : Option Date
  remarks : String
deriving DecidableEq, Repr

/-- `new_data` built by the form submit handler (src/app.py lines
266-271): transient flags false, and `完了日` kept only when it is present
and the status is 完了 (Done). -/
def new_data (inp : FormInput) : TaskRecord :=
  { delete := false, notify := false,
    title := inp.title, details := inp.details, requester := inp.requester,
    assignee1 := inp.as1, assignee2 := inp.as2, assignee3 := inp.as3,
    priority := inp.priority, status := inp.status,
    due := inp.due_date,
    completion := if inp.completion_date.isSome && (inp.status == "完了")
                  then inp.completion_date else none,
    remarks := inp.remarks }

/-- Result of one mutation handler: the new ledger, whether `save_data`
was invoked, and whether a validation error was reported. -/
structure MutResult where
  ledger : List TaskRecord
  saved : Bool
  errorReported : Bool
deriving DecidableEq, Repr

/-- The form submit handler (src/app.py lines 262-283): an empty title
reports `タイトルは必須です` and mutates nothing; otherwise the built record
replaces the record at the designated edit position or is appended, and
the whole ledger is saved. -/
def formSubmit (ledger : List TaskRecord) (editIdx : Option Nat)
    (inp : FormInput) : MutResult :=
  if inp.title = "" then
    { ledger := ledger, saved := false, errorReported := true }
  else
    let rec' := new_data inp
    let ledger' := match editIdx with
      | some i => ledger.set i rec'
      | none => ledger ++ [rec']
    { ledger := ledger', saved := true, errorReported := false }

/-- A ledger column addressable by the data editor. -/
inductive Col
  | notify | delete | title | details | requester
  | a1 | a2 | a3 | priority | status | due | completion | remarks
deriving DecidableEq, Repr

/-- A value written into one cell by the data editor. -/
inductive CellVal
  | s (v : String)
  | d (v : Option Date)
  | b (v : Bool)
deriving DecidableEq, Repr

/-- Write one cell of a record (`tasks_df.at[real_idx, c] = v`, src/app.py
line 333); a value whose type does not fit the column leaves the record
unchanged (the editor only produces well-typed values per column). -/
def setCell (r : TaskRecord) : Col → CellVal → TaskRecord
  | .notify, .b v => { r with notify := v }
  | .delete, .b v => { r with delete := v }
  | .title, .s v => { r with title := v }
  | .details, .s v => { r with details := v }
  | .requester, .s v => { r with requester := v }
  | .a1, .s v => { r with assignee1 := v }
  | .a2, .s v => { r with assignee2 := v }
  | .a3, .s v => { r with assignee3 := v }
  | .priority, .s v => { r with priority := v }
  | .status, .s v => { r with status := v }
  | .due, .d v => { r with due := v }
  | .completion, .d v => { r with completion := v }
  | .remarks, .s v => { r with remarks := v }
  | _, _ => r

/-- The table cell-edit handler (src/app.py lines 330-336): the
`edited_rows` deltas, already translated to absolute ledger positions, are
applied as a flat sequence of cell writes, then the ledger is saved; with
no deltas the handler does not run. -/
def applyDelta (ledger : List TaskRecord)
    (edits : List (Nat × Col × CellVal)) : MutResult :=
  if edits = [] then
    { ledger := ledger, saved := false, errorReported := false }
  else
    { ledger := edits.foldl
        (fun acc e => acc.modify (fun r => setCell r e.2.1 e.2.2) e.1) ledger,
      saved := true, errorReported := false }

/-- The bulk delete handler (src/app.py lines 338-355): when at least one
record has the 削除 flag, the flagged rows are dropped, both transient
flag columns are reset to false on the survivors, and the ledger is saved;
with no flagged row nothing happens. -/
def bulkDelete (ledger : List TaskRecord) : MutResult :=
  if ledger.any (·.delete) then
    { ledger := (ledger.filter (fun r => !r.delete)).map resetFlags,
      saved := true, errorReported := false }
  else
    { ledger := ledger, saved := false, errorReported := false }

/-- The records selected by the notification handler (src/app.py lines
204-211): 通知 flag set, status not 完了 (Done), and the chosen addressee
name exactly equal to one of the three assignee slots. -/
def notifyTargets (ledger : List TaskRecord) (name : String) : List TaskRecord :=
  ((ledger.filter (·.notify)).filter (fun r => r.status != "完了")).filter
    (fun r => r.assignee1 == name || r.assignee2 == name || r.assignee3 == name)

/-- Result of one notification trigger: how many mail-transport calls were
made and the ledger afterwards. -/
structure NotifyResult where
  mailCalls : Nat
  ledger : List TaskRecord
deriving DecidableEq, Repr

/-- The notification send handler (src/app.py lines 202-230): when sender
address, app password, destination address and addressee name are all
nonempty, it selects the target records and, when the selection is
nonempty, makes exactly one `send_gmail` call; it never writes to the
ledger, in particular it never clears any 通知 flag. -/
def notifyDispatch (ledger : List TaskRecord) (name : String)
    (gmailUser gmailPass targetEmail : String) : NotifyResult :=
  if gmailUser != "" && gmailPass != "" && targetEmail != "" && name != "" then
    if (notifyTargets ledger name).length > 0 then
      { mailCalls := 1, ledger := ledger }
    else
      { mailCalls := 0, ledger := ledger }
  else
    { mailCalls := 0, ledger := ledger }

/-- A half-open row/column index rectangle as sent to the sheets API
(`startRowIndex`/`endRowIndex`/`startColumnIndex`/`endColumnIndex`,
zero-based, end exclusive). -/
structure GridRange where
  startRow : Nat
  endRow : Nat
  startCol : Nat
  endCol : Nat
deriving DecidableEq, Repr

/-- An externally visible operation performed by `save_data` against the
spreadsheet. -/
inductive SaveEffect
  | batchClear (range : String)
  | update (startCell : String) (rows : List (List String))
  | setValidation (range : GridRange) (options : List String)
deriving DecidableEq, Repr

/-- The two `setDataValidation` requests of `set_validation` (src/app.py
lines 100-116): priority column (index 6) and status column (index 7),
rows 1..1000 zero-based exclusive, i.e. spreadsheet rows 2..1000. -/
def set_validation_requests : List SaveEffect :=
  [ .setValidation ⟨1, 1000, 6, 7⟩ PRIORITY_OPTIONS,
    .setValidation ⟨1, 1000, 7, 8⟩ STATUS_OPTIONS ]

/-- `set_validation`'s effects given whether its `batch_update` call
succeeds: the whole call is wrapped in `try/except: pass`, so a failure is
swallowed and produces no effect. -/
def set_validation_run (ok : Bool) : List SaveEffect :=
  if ok then set_validation_requests else []

/-- `save_data`'s return value and sheet effects (src/app.py lines 73-98)
given whether the data write (clear + update) succeeds and whether the
validation re-application succeeds: on a failed write the exception is
caught and `False` returned; on a successful write the constraints are
re-applied best-effort and `True` is returned regardless. -/
def save_data_run (ledger : List TaskRecord) (writeOk validationOk : Bool) :
    Bool × List SaveEffect :=
  if writeOk then
    (true,
      .batchClear "A2:K1000" ::
      ((if (save_data ledger).length > 0 then [.update "A2" (save_data ledger)] else []) ++
        set_validation_run validationOk))
  else
    (false, [])

/-- A spreadsheet modelled as its rows (1-based row number to the 11
cells of columns A..K); row 1 is the header. -/
def Sheet : Type := Nat → List String

/-- Effect of `sheet.batch_clear(["A2:K1000"])` (src/app.py line 88):
rows 2..1000, columns A..K, are emptied; every other row is untouched. -/
def applyBatchClear (sheet : Sheet) : Sheet :=
  fun n => if 2 ≤ n ∧ n ≤ 1000 then List.replicate 11 "" else sheet n

/-- Effect of `sheet.update(range_name='A2', values=rows)` (src/app.py
line 91): the data rows are written starting at row 2, however many there
are; rows past the data are untouched. -/
def applyUpdate (sheet : Sheet) (rows : List (List String)) : Sheet :=
  fun n => if 2 ≤ n ∧ n - 2 < rows.length then rows.getD (n - 2) [] else sheet n

/-- The sheet after a successful `save_data` write: clear rows 2..1000,
then write the ledger's rows from row 2. -/
def applySave (sheet : Sheet) (ledger : List TaskRecord) : Sheet :=
  applyUpdate (applyBatchClear sheet) (save_data ledger)

/-- The `completion_date` invariant claimed by the spec: every record
whose status is not 完了 (Done) has an absent completion date. -/
def invariantCompletion (ledger : List TaskRecord) : Bool :=
  ledger.all (fun r => r.status == "完了" || r.completion == none)

/-! Decimal digit and date formatting lemmas -/

lemma charVal_digitChar {n : Nat} (h : n < 10) : charVal (digitChar n) = n := by
  interval_cases n <;> decide

lemma isDigit_digitChar {n : Nat} (h : n < 10) : (digitChar n).isDigit = true := by
  interval_cases n <;> decide

lemma digitChar_ne_hyphen {n : Nat} (h : n < 10) : digitChar n ≠ '-' := by
  interval_cases n <;> decide

lemma not_isWs_digitChar {n : Nat} (h : n < 10) : isWs (digitChar n) = false := by
  interval_cases n <;> decide

lemma natDigits_ne_nil (n : Nat) : natDigits n ≠ [] := by
  rw [natDigits]
  split <;> simp

lemma mem_natDigits (n : Nat) : ∀ c ∈ natDigits n, ∃ k, k < 10 ∧ c = digitChar k := by
  induction n using Nat.strong_induction_on with
  | _ n ih =>
    rw [natDigits]
    split
    · next h =>
      intro c hc
      simp only [List.mem_singleton] at hc
      exact ⟨n, h, hc⟩
    · next h =>
      intro c hc
      rcases List.mem_append.mp hc with hc | hc
      · exact ih (n / 10) (Nat.div_lt_self (by omega) (by norm_num)) c hc
      · simp only [List.mem_singleton] at hc
        exact ⟨n % 10, Nat.mod_lt _ (by norm_num), hc⟩

lemma foldl_digitStep_natDigits (n : Nat) : (natDigits n).foldl digitStep 0 = n := by
  induction n using Nat.strong_induction_on with
  | _ n ih =>
    rw [natDigits]
    split
    · next h =>
      simp [digitStep, charVal_digitChar h]
    · next h =>
      rw [List.foldl_append, ih (n / 10) (Nat.div_lt_self (by omega) (by norm_num))]
      simp only [List.foldl_cons, List.foldl_nil, digitStep,
        charVal_digitChar (Nat.mod_lt n (by norm_num))]
      omega

lemma foldl_digitStep_replicate_zero (j : Nat) (l : List Char) :
    (List.replicate j '0' ++ l).foldl digitStep 0 = l.foldl digitStep 0 := by
  induction j with
  | zero => simp
  | succ j ih =>
    rw [List.replicate_succ, List.cons_append, List.foldl_cons]
    have h0 : digitStep 0 '0' = 0 := by decide
    rw [h0, ih]

lemma digitsToNat_padZeros_natDigits (k n : Nat) :
    digitsToNat (padZeros k (natDigits n)) = some n := by
  unfold digitsToNat padZeros
  rw [if_pos, foldl_digitStep_replicate_zero, foldl_digitStep_natDigits]
  constructor
  · intro hnil
    exact natDigits_ne_nil n (List.append_eq_nil.mp hnil).2
  · rw [List.all_append, Bool.and_eq_true]
    refine ⟨?_, ?_⟩
    · rw [List.all_eq_true]
      intro c hc
      rw [List.eq_of_mem_replicate hc]
      decide
    · rw [List.all_eq_true]
      intro c hc
      obtain ⟨j, hj, rfl⟩ := mem_natDigits n c hc
      exact isDigit_digitChar hj

lemma mem_padZeros_natDigits {c : Char} {k n : Nat}
    (h : c ∈ padZeros k (natDigits n)) : ∃ j, j < 10 ∧ c = digitChar j := by
  unfold padZeros at h
  rcases List.mem_append.mp h with h | h
  · exact ⟨0, by norm_num, List.eq_of_mem_replicate h⟩
  · exact mem_natDigits n c h

lemma padZeros_natDigits_ne_hyphen {k n : Nat} :
    ∀ c ∈ padZeros k (natDigits n), c ≠ '-' := by
  intro c hc
  obtain ⟨j, hj, rfl⟩ := mem_padZeros_natDigits hc
  exact digitChar_ne_hyphen hj

lemma mem_formatDateChars {c : Char} {d : Date} (h : c ∈ formatDateChars d) :
    c = '-' ∨ ∃ j, j < 10 ∧ c = digitChar j := by
  unfold formatDateChars at h
  rcases List.mem_append.mp h with h | h
  · exact Or.inr (mem_padZeros_natDigits h)
  · rcases List.mem_cons.mp h with h | h
    · exact Or.inl h
    · rcases List.mem_append.mp h with h | h
      · exact Or.inr (mem_padZeros_natDigits h)
      · rcases List.mem_cons.mp h with h | h
        · exact Or.inl h
        · exact Or.inr (mem_padZeros_natDigits h)

lemma dropWhile_isWs_eq_self {l : List Char} (h : ∀ c ∈ l, isWs c = false) :
    l.dropWhile isWs = l := by
  cases l with
  | nil => rfl
  | cons a as =>
    rw [List.dropWhile_cons, h a (List.mem_cons_self a as)]
    simp

lemma trimWs_eq_self {l : List Char} (h : ∀ c ∈ l, isWs c = false) :
    trimWs l = l := by
  unfold trimWs
  rw [dropWhile_isWs_eq_self h,
    dropWhile_isWs_eq_self (fun c hc => h c (List.mem_reverse.mp hc)),
    List.reverse_reverse]

lemma splitOnChar_of_not_mem {sep : Char} {l : List Char}
    (h : ∀ c ∈ l, c ≠ sep) : splitOnChar sep l = [l] := by
  induction l with
  | nil => rfl
  | cons a as ih =>
    rw [splitOnChar, if_neg (h a (List.mem_cons_self a as)),
      ih (fun c hc => h c (List.mem_cons_of_mem a hc))]

lemma splitOnChar_append {sep : Char} (A : List Char) (rest : List Char)
    (h : ∀ c ∈ A, c ≠ sep) :
    splitOnChar sep (A ++ sep :: rest) = A :: splitOnChar sep rest := by
  induction A with
  | nil =>
    rw [List.nil_append, splitOnChar, if_pos rfl]
  | cons a as ih =>
    rw [List.cons_append, splitOnChar, if_neg (h a (List.mem_cons_self a as)),
      ih (fun c hc => h c (List.mem_cons_of_mem a hc))]

lemma parseYMD_formatDateChars {d : Date} (h : dateValid d = true) :
    parseYMD (formatDateChars d) = some d := by
  unfold parseYMD formatDateChars
  rw [splitOnChar_append _ _ padZeros_natDigits_ne_hyphen,
    splitOnChar_append _ _ padZeros_natDigits_ne_hyphen,
    splitOnChar_of_not_mem padZeros_natDigits_ne_hyphen]
  simp only [digitsToNat_padZeros_natDigits]
  rw [if_pos h]

lemma parseYMD_valid {l : List Char} {dd : Date} (h : parseYMD l = some dd) :
    dateValid dd = true := by
  unfold parseYMD at h
  split at h
  · split at h
    · split at h
      · next hv =>
        cases h
        exact hv
      · cases h
    · cases h
  · cases h

/-- Round trip for a present, valid date: parsing the formatted form
recovers the date. -/
lemma parse_format_roundtrip {d : Date} (h : dateValid d = true) :
    parse_date (format_date (some d)) = some d := by
  show parse_date ⟨formatDateChars d⟩ = some d
  have hchars : ∀ c ∈ formatDateChars d, isWs c = false := by
    intro c hc
    rcases mem_formatDateChars hc with hc | ⟨j, hj, rfl⟩
    · rw [hc]; decide
    · exact not_isWs_digitChar hj
  have hne : formatDateChars d ≠ [] := by
    unfold formatDateChars
    intro hnil
    exact List.cons_ne_nil _ _ (List.append_eq_nil.mp hnil).2
  unfold parse_date
  show (if trimWs (formatDateChars d) = [] then none
        else parseYMD (trimWs (formatDateChars d))) = some d
  rw [trimWs_eq_self hchars, if_neg hne]
  exact parseYMD_formatDateChars h

/-- Round trip for an optional date whose present value is valid. -/
lemma parse_format_opt {x : Option Date} (h : x.all dateValid = true) :
    parse_date (format_date x) = x := by
  cases x with
  | none => decide
  | some d => exact parse_format_roundtrip h

lemma trimWs_eq_nil {l : List Char} (h : l.all isWs = true) : trimWs l = [] := by
  unfold trimWs
  rw [List.dropWhile_eq_nil_iff.mpr (fun x hx => List.all_eq_true.mp h x hx)]
  rfl

lemma dateLt_irrefl (d : Date) : dateLt d d = false := by
  simp [dateLt]

/-- Characterization of the alert mask of src/app.py line 167. -/
lemma is_alertable_eq (r : TaskRecord) (today : Date) :
    is_alertable r today = true ↔
      r.status ≠ "完了" ∧
        ((∃ d, r.due = some d ∧ dateLt d today = true) ∨ r.priority = "高") := by
  rcases hr : r.due with _ | d <;> simp [is_alertable, hr]

/-- The record built by the form handler always satisfies the
completion-date rule: its completion date is absent unless its status is
完了 (Done). -/
lemma new_data_completion_rule (inp : FormInput) :
    ((new_data inp).status == "完了" || (new_data inp).completion == none) = true := by
  by_cases hst : inp.status = "完了"
  · simp [new_data, hst]
  · have hb : (inp.status == "完了") = false := beq_eq_false_iff_ne.mpr hst
    simp [new_data, hb]

/-! Claim theorems -/

/-- C1: for every task record and date `today`, the alert predicate holds
exactly when the record's status is not 完了 (Done) and either its due
date is present and strictly earlier than `today` or its priority is 高
(High); in particular a Done task is never alertable, a non-Done
High-priority task is alertable regardless of due date (in particular with
absent or future due date), a non-Done Low-priority strictly overdue task
is alertable, and a non-Done Medium-priority task due exactly today is not
alertable. -/
theorem C1_alert_predicate (r : TaskRecord) (today : Date) :
    (is_alertable r today = true ↔
      r.status ≠ "完了" ∧
        ((∃ d, r.due = some d ∧ dateLt d today = true) ∨ r.priority = "高")) ∧
    (r.status = "完了" → is_alertable r today = false) ∧
    (r.status ≠ "完了" → r.priority = "高" → is_alertable r today = true) ∧
    (r.status ≠ "完了" → r.priority = "低" →
      (∃ d, r.due = some d ∧ dateLt d today = true) → is_alertable r today = true) ∧
    (r.status ≠ "完了" → r.priority = "中" → r.due = some today →
      is_alertable r today = false) := by
  refine ⟨is_alertable_eq r today, ?_, ?_, ?_, ?_⟩
  · intro hs
    cases hab : is_alertable r today with
    | false => rfl
    | true => exact absurd hs ((is_alertable_eq r today).mp hab).1
  · intro hs hp
    exact (is_alertable_eq r today).mpr ⟨hs, Or.inr hp⟩
  · intro hs _hp hov
    exact (is_alertable_eq r today).mpr ⟨hs, Or.inl hov⟩
  · intro _hs hp hd
    cases hab : is_alertable r today with
    | false => rfl
    | true =>
      rcases ((is_alertable_eq r today).mp hab).2 with ⟨d', hd', hlt⟩ | hhigh
      · rw [hd] at hd'
        obtain rfl : today = d' := by injection hd'
        rw [dateLt_irrefl] at hlt
        cases hlt
      · rw [hp] at hhigh
        exact absurd hhigh (by decide)

/-- Witness for C1 at the spec's §8 scenario: a non-Done Low-priority task
due 2024-01-01 is alertable on 2024-06-01. -/
theorem C1_alert_predicate_witness :
    is_alertable ⟨false, false, "A", "", "", "", "", "", "低", "未対応",
      some ⟨2024, 1, 1⟩, none, ""⟩ ⟨2024, 6, 1⟩ = true :=
  (C1_alert_predicate ⟨false, false, "A", "", "", "", "", "", "低", "未対応",
      some ⟨2024, 1, 1⟩, none, ""⟩ ⟨2024, 6, 1⟩).2.2.2.1
    (by decide) (by decide) ⟨⟨2024, 1, 1⟩, rfl, by decide⟩

/-- C4: `parse_date` is a total function (hence never raises); it returns
absent on whitespace-only (in particular empty) input and exactly when
calendar parsing of the stripped input fails, and any date it returns is a
genuine calendar date. -/
theorem C4_parse_date_total (s : String) :
    (s.data.all isWs = true → parse_date s = none) ∧
    (parse_date s = none ↔ trimWs s.data = [] ∨ parseYMD (trimWs s.data) = none) ∧
    (∀ d, parse_date s = some d → dateValid d = true) := by
  refine ⟨?_, ?_, ?_⟩
  · intro hws
    unfold parse_date
    rw [if_pos (trimWs_eq_nil hws)]
  · unfold parse_date
    by_cases h : trimWs s.data = []
    · simp [h]
    · rw [if_neg h]
      constructor
      · exact fun hn => Or.inr hn
      · intro hor
        rcases hor with hh | hh
        · exact absurd hh h
        · exact hh
  · intro d hd
    unfold parse_date at hd
    by_cases h : trimWs s.data = []
    · rw [if_pos h] at hd
      cases hd
    · rw [if_neg h] at hd
      exact parseYMD_valid hd

/-- Witness for C4: the garbage input `"garbage"` parses to absent, and
the empty string parses to absent. -/
theorem C4_parse_date_total_witness :
    parse_date "garbage" = none ∧ parse_date "" = none :=
  ⟨(C4_parse_date_total "garbage").2.1.mpr (Or.inr (by decide)),
   (C4_parse_date_total "").1 (by decide)⟩

/-- C5: for every valid present calendar date `d`, parsing the formatted
form of `d` yields `d` again, and formatting the result of parsing the
empty string yields the empty string. -/
theorem C5_date_roundtrip :
    (∀ d : Date, dateValid d = true →
      parse_date (format_date (some d)) = some d) ∧
    format_date (parse_date "") = "" :=
  ⟨fun _ h => parse_format_roundtrip h, by decide⟩

/-- Witness for C5 at `2024-01-13`. -/
theorem C5_date_roundtrip_witness :
    parse_date (format_date (some ⟨2024, 1, 13⟩)) = some ⟨2024, 1, 13⟩ :=
  C5_date_roundtrip.1 ⟨2024, 1, 13⟩ (by decide)

/-- C2 counterexample: the claimed invariant fails on the cell-edit path.
A ledger satisfying the invariant (one Done record with a completion date)
is mutated by an accepted cell-edit delta that sets the status to 進行中
(InProgress); the handler saves, yet the record keeps its completion
date while no longer being Done. -/
theorem C2_completion_invariant_counterexample :
    invariantCompletion
      [⟨false, false, "A", "", "", "", "", "", "高", "完了", none, some ⟨2024, 1, 1⟩, ""⟩] = true ∧
    (applyDelta
      [⟨false, false, "A", "", "", "", "", "", "高", "完了", none, some ⟨2024, 1, 1⟩, ""⟩]
      [(0, Col.status, CellVal.s "進行中")]).saved = true ∧
    invariantCompletion (applyDelta
      [⟨false, false, "A", "", "", "", "", "", "高", "完了", none, some ⟨2024, 1, 1⟩, ""⟩]
      [(0, Col.status, CellVal.s "進行中")]).ledger = false := by
  decide

/-- C2 (amended): after a form submit or a bulk delete, every record whose
status is not 完了 (Done) has an absent completion date, provided the
ledger satisfied that property before the mutation; the cell-edit path
does not preserve it. -/
theorem C2_completion_invariant_amended (ledger : List TaskRecord)
    (h : invariantCompletion ledger = true) :
    (∀ editIdx inp, invariantCompletion (formSubmit ledger editIdx inp).ledger = true) ∧
    invariantCompletion (bulkDelete ledger).ledger = true := by
  constructor
  · intro editIdx inp
    unfold formSubmit
    by_cases ht : inp.title = ""
    · rw [if_pos ht]
      exact h
    · rw [if_neg ht]
      cases editIdx with
      | none =>
        show invariantCompletion (ledger ++ [new_data inp]) = true
        unfold invariantCompletion at h ⊢
        rw [List.all_append, h]
        simp [new_data_completion_rule inp]
      | some i =>
        show invariantCompletion (ledger.set i (new_data inp)) = true
        unfold invariantCompletion at h ⊢
        rw [List.all_eq_true]
        intro r hr
        rcases List.mem_or_eq_of_mem_set hr with hmem | rfl
        · exact List.all_eq_true.mp h r hmem
        · exact new_data_completion_rule inp
  · unfold bulkDelete
    by_cases hb : ledger.any (·.delete) = true
    · rw [if_pos hb]
      show invariantCompletion ((ledger.filter (fun r => !r.delete)).map resetFlags) = true
      unfold invariantCompletion at h ⊢
      rw [List.all_eq_true]
      intro r hr
      obtain ⟨a, ha, rfl⟩ := List.mem_map.mp hr
      exact List.all_eq_true.mp h a (List.mem_filter.mp ha).1
    · rw [if_neg hb]
      exact h

/-- Witness for C2 (amended): submitting a non-Done task with a filled
completion-date picker stores it with an absent completion date. -/
theorem C2_completion_invariant_amended_witness :
    invariantCompletion (formSubmit [] none
      ⟨"T", "", "", "", "", "", "高", "未対応", none, some ⟨2024, 1, 1⟩, ""⟩).ledger = true :=
  (C2_completion_invariant_amended [] (by decide)).1 none
    ⟨"T", "", "", "", "", "", "高", "未対応", none, some ⟨2024, 1, 1⟩, ""⟩

/-- C3: saving a ledger and loading the saved rows yields the original
ledger in order and in every persisted field, with both transient flags
false on every loaded row (ledger dates lie in the calendar range the
source's date objects guarantee). -/
theorem C3_save_load_roundtrip (ledger : List TaskRecord)
    (h : ∀ r ∈ ledger, r.due.all dateValid = true ∧ r.completion.all dateValid = true) :
    load_data (save_data ledger) = ledger.map resetFlags ∧
    ∀ r ∈ load_data (save_data ledger), r.notify = false ∧ r.delete = false := by
  have key : ∀ r ∈ ledger, load_row (save_row r) = resetFlags r := by
    intro r hr
    obtain ⟨h1, h2⟩ := h r hr
    have e1 : load_row (save_row r) =
        ⟨false, false, r.title, r.details, r.requester, r.assignee1, r.assignee2,
          r.assignee3, r.priority, r.status, parse_date (format_date r.due),
          parse_date (format_date r.completion), r.remarks⟩ := rfl
    rw [e1, parse_format_opt h1, parse_format_opt h2]
    rfl
  have hmain : load_data (save_data ledger) = ledger.map resetFlags := by
    unfold load_data save_data
    rw [List.map_map]
    exact List.map_congr_left key
  refine ⟨hmain, ?_⟩
  intro r hr
  rw [hmain] at hr
  obtain ⟨a, _, rfl⟩ := List.mem_map.mp hr
  exact ⟨rfl, rfl⟩

/-- Witness for C3 at a one-record ledger with both dates present. -/
theorem C3_save_load_roundtrip_witness :
    load_data (save_data
      [⟨true, true, "A", "d", "r", "x", "y", "z", "高", "完了",
        some ⟨2024, 2, 29⟩, some ⟨2024, 3, 1⟩, "m"⟩]) =
    [⟨true, true, "A", "d", "r", "x", "y", "z", "高", "完了",
        some ⟨2024, 2, 29⟩, some ⟨2024, 3, 1⟩, "m"⟩].map resetFlags :=
  (C3_save_load_roundtrip
    [⟨true, true, "A", "d", "r", "x", "y", "z", "高", "完了",
        some ⟨2024, 2, 29⟩, some ⟨2024, 3, 1⟩, "m"⟩] (by decide)).1

/-- C6: a form submit with an empty title leaves the ledger unchanged,
invokes no save, and reports a validation error. -/
theorem C6_empty_title_rejected (ledger : List TaskRecord)
    (editIdx : Option Nat) (inp : FormInput) (h : inp.title = "") :
    formSubmit ledger editIdx inp = ⟨ledger, false, true⟩ := by
  unfold formSubmit
  rw [if_pos h]

/-- Witness for C6. -/
theorem C6_empty_title_rejected_witness :
    formSubmit [] none ⟨"", "", "", "", "", "", "高", "未対応", none, none, ""⟩ =
      ⟨[], false, true⟩ :=
  C6_empty_title_rejected [] none
    ⟨"", "", "", "", "", "", "高", "未対応", none, none, ""⟩ rfl

/-- C7 counterexample: on a ledger with no flagged record but a set 通知
flag, the bulk delete handler performs no save and leaves the notify flag
set, contradicting the claim's unconditional "flags reset and save
performed". -/
theorem C7_bulk_delete_counterexample :
    (bulkDelete [⟨true, false, "A", "", "", "", "", "", "高", "未対応", none, none, ""⟩]).saved
        = false ∧
    ¬ ∀ r ∈ (bulkDelete
        [⟨true, false, "A", "", "", "", "", "", "高", "未対応", none, none, ""⟩]).ledger,
      r.notify = false := by
  decide

/-- C7 (amended): when at least one record is flagged for deletion, bulk
delete removes exactly the flagged records, the survivors keep their
relative order (the result is the order-preserving filter of the ledger),
every survivor has both transient flags false, and a save is performed;
with no flagged record nothing happens and no save occurs. -/
theorem C7_bulk_delete_amended (ledger : List TaskRecord)
    (h : ledger.any (·.delete) = true) :
    (bulkDelete ledger).ledger = (ledger.filter (fun r => !r.delete)).map resetFlags ∧
    (bulkDelete ledger).saved = true ∧
    ∀ r ∈ (bulkDelete ledger).ledger, r.delete = false ∧ r.notify = false := by
  unfold bulkDelete
  rw [if_pos h]
  refine ⟨rfl, rfl, ?_⟩
  intro r hr
  obtain ⟨a, _, rfl⟩ := List.mem_map.mp hr
  exact ⟨rfl, rfl⟩

/-- Witness for C7 (amended) at the spec's scenario: three records, the
first and third flagged; the result is the one unflagged record with
flags reset, and a save happens. -/
theorem C7_bulk_delete_amended_witness :
    (bulkDelete
      [⟨false, true, "A", "", "", "", "", "", "高", "未対応", none, none, ""⟩,
       ⟨true, false, "B", "", "", "", "", "", "中", "進行中", none, none, ""⟩,
       ⟨false, true, "C", "", "", "", "", "", "低", "未対応", none, none, ""⟩]).saved = true ∧
    (bulkDelete
      [⟨false, true, "A", "", "", "", "", "", "高", "未対応", none, none, ""⟩,
       ⟨true, false, "B", "", "", "", "", "", "中", "進行中", none, none, ""⟩,
       ⟨false, true, "C", "", "", "", "", "", "低", "未対応", none, none, ""⟩]).ledger =
    ([⟨false, true, "A", "", "", "", "", "", "高", "未対応", none, none, ""⟩,
       ⟨true, false, "B", "", "", "", "", "", "中", "進行中", none, none, ""⟩,
       ⟨false, true, "C", "", "", "", "", "", "低", "未対応", none, none, ""⟩].filter
      (fun r => !r.delete)).map resetFlags :=
  ⟨(C7_bulk_delete_amended _ (by decide)).2.1,
   (C7_bulk_delete_amended _ (by decide)).1⟩

/-- C8: with all sender/recipient settings nonempty, the dispatch
selection contains exactly the ledger records with the 通知 flag set,
status not 完了 (Done), and the addressee name exactly equal to one of the
three assignee slots; a nonempty selection makes exactly one mail call,
and the ledger (hence every 通知 flag) is left unchanged, so a repeated
trigger re-sends the same set. -/
theorem C8_notification_dispatch (ledger : List TaskRecord)
    (name gmailUser gmailPass targetEmail : String)
    (hu : gmailUser ≠ "") (hp : gmailPass ≠ "") (he : targetEmail ≠ "") (hn : name ≠ "") :
    (∀ r, r ∈ notifyTargets ledger name ↔
      r ∈ ledger ∧ r.notify = true ∧ r.status ≠ "完了" ∧
        (r.assignee1 = name ∨ r.assignee2 = name ∨ r.assignee3 = name)) ∧
    (notifyTargets ledger name ≠ [] →
      (notifyDispatch ledger name gmailUser gmailPass targetEmail).mailCalls = 1) ∧
    (notifyDispatch ledger name gmailUser gmailPass targetEmail).ledger = ledger := by
  have hc : (gmailUser != "" && gmailPass != "" && targetEmail != "" && name != "") = true := by
    simp [hu, hp, he, hn]
  refine ⟨?_, ?_, ?_⟩
  · intro r
    simp only [notifyTargets, List.mem_filter, bne_iff_ne, ne_eq, Bool.or_eq_true,
      beq_iff_eq, and_assoc]
    tauto
  · intro hne
    unfold notifyDispatch
    rw [if_pos hc, if_pos (List.length_pos.mpr hne)]
  · unfold notifyDispatch
    split <;> first | rfl | (split <;> rfl)

/-- Witness for C8: one flagged, non-Done record assigned to Alice is
selected, one mail call is made, and the ledger is unchanged. -/
theorem C8_notification_dispatch_witness :
    (notifyDispatch
      [⟨true, false, "A", "", "", "Alice", "", "", "高", "未対応", none, none, ""⟩]
      "Alice" "u" "p" "e").mailCalls = 1 ∧
    (notifyDispatch
      [⟨true, false, "A", "", "", "Alice", "", "", "高", "未対応", none, none, ""⟩]
      "Alice" "u" "p" "e").ledger =
      [⟨true, false, "A", "", "", "Alice", "", "", "高", "未対応", none, none, ""⟩] :=
  ⟨(C8_notification_dispatch
      [⟨true, false, "A", "", "", "Alice", "", "", "高", "未対応", none, none, ""⟩]
      "Alice" "u" "p" "e" (by decide) (by decide) (by decide) (by decide)).2.1 (by decide),
   (C8_notification_dispatch
      [⟨true, false, "A", "", "", "Alice", "", "", "高", "未対応", none, none, ""⟩]
      "Alice" "u" "p" "e" (by decide) (by decide) (by decide) (by decide)).2.2⟩

/-- C9: when the data write succeeds, `save_data` reports success, the
enumerated-value constraints for the priority column (index 6) and the
status column (index 7) are re-applied over the full row range (rows
1..1000 zero-based exclusive) when the re-application succeeds, and a
failed re-application is swallowed (it produces no effect and the save
still reports success). -/
theorem C9_validation_best_effort (ledger : List TaskRecord) (validationOk : Bool) :
    (save_data_run ledger true validationOk).1 = true ∧
    (validationOk = true →
      SaveEffect.setValidation ⟨1, 1000, 6, 7⟩ PRIORITY_OPTIONS
          ∈ (save_data_run ledger true validationOk).2 ∧
      SaveEffect.setValidation ⟨1, 1000, 7, 8⟩ STATUS_OPTIONS
          ∈ (save_data_run ledger true validationOk).2) ∧
    set_validation_run false = [] ∧
    (save_data_run ledger true false).1 = true := by
  refine ⟨rfl, ?_, rfl, rfl⟩
  rintro rfl
  constructor <;> simp [save_data_run, set_validation_run, set_validation_requests]

/-- Witness for C9: on the empty ledger, a save with failing validation
still succeeds, and with succeeding validation the priority constraint is
re-applied. -/
theorem C9_validation_best_effort_witness :
    (save_data_run [] true false).1 = true ∧
    SaveEffect.setValidation ⟨1, 1000, 6, 7⟩ PRIORITY_OPTIONS
        ∈ (save_data_run [] true true).2 :=
  ⟨(C9_validation_best_effort [] false).1,
   ((C9_validation_best_effort [] true).2.1 rfl).1⟩

/-- C10: the region cleared by a save is exactly spreadsheet rows 2..1000
(the 11 columns A..K); the validation constraints cover only zero-based
rows 1..1000, i.e. spreadsheet rows 2..1000; rows past 1000 are written
when the ledger is long enough but never cleared, so after saving a big
(>999 rows) ledger and then a small (≤999 rows) one, the rows past row
1000 still hold the big ledger's stale data. -/
theorem C10_save_frame (sheet : Sheet) (ledger big small : List TaskRecord) (n : Nat) :
    (2 ≤ n ∧ n ≤ 1000 → applyBatchClear sheet n = List.replicate 11 "") ∧
    (n < 2 ∨ 1000 < n → applyBatchClear sheet n = sheet n) ∧
    (∀ g o, SaveEffect.setValidation g o ∈ set_validation_requests →
      g.startRow = 1 ∧ g.endRow = 1000) ∧
    (1000 < n → (save_data ledger).length ≤ n - 2 →
      applySave sheet ledger n = sheet n) ∧
    (1000 < n → n - 2 < (save_data big).length → (save_data small).length ≤ 999 →
      applySave (applySave sheet big) small n = (save_data big).getD (n - 2) []) := by
  refine ⟨?_, ?_, ?_, ?_, ?_⟩
  · intro hcond
    unfold applyBatchClear
    rw [if_pos hcond]
  · intro hcond
    unfold applyBatchClear
    rw [if_neg (by omega)]
  · intro g o hg
    simp only [set_validation_requests, List.mem_cons, List.mem_singleton,
      List.not_mem_nil, or_false] at hg
    rcases hg with hg | hg <;>
      · obtain ⟨hg1, _⟩ := SaveEffect.setValidation.inj hg
        subst hg1
        exact ⟨rfl, rfl⟩
  · intro h1 h2
    simp only [applySave, applyUpdate, applyBatchClear]
    rw [if_neg (by omega), if_neg (by omega)]
  · intro h1 h2 h3
    simp only [applySave, applyUpdate, applyBatchClear]
    rw [if_neg (by omega), if_neg (by omega), if_pos ⟨by omega, h2⟩]

/-- Witness for C10: after saving a 1000-row ledger and then the empty
ledger, spreadsheet row 1001 still holds row 999 of the big save. -/
theorem C10_save_frame_witness :
    applySave (applySave (fun _ => [])
        (List.replicate 1000
          ⟨false, false, "A", "", "", "", "", "", "高", "未対応", none, none, ""⟩))
      [] 1001 =
    (save_data (List.replicate 1000
        ⟨false, false, "A", "", "", "", "", "", "高", "未対応", none, none, ""⟩)).getD 999 [] :=
  (C10_save_frame (fun _ => []) []
      (List.replicate 1000
        ⟨false, false, "A", "", "", "", "", "", "高", "未対応", none, none, ""⟩)
      [] 1001).2.2.2.2
    (by norm_num)
    (by simp only [save_data, List.length_map, List.length_replicate]; omega)
    (by decide)

end TaskApp
